import Mathlib

/-!
Verification of the AWS Lambda SES contact-form handler (`src/index.js`,
`exports.handler`).

The handler is embedded as a pure function. All external effects are made
explicit:
  * `jsonParse` models the JS builtin `JSON.parse` applied to the request
    body string, together with the shape of the parsed value as the
    handler then observes it (see `ParseResult`): a parse error, a
    non-object value, an object with a null validated field, or an object
    body of optional strings;
  * `VerifyOutcome` models the awaited result of the `axios.post` call to
    the recaptcha siteverify endpoint (a throw, or a resolved response whose
    `data` field may be absent);
  * the two `SettledOutcome` arguments model the settled states of the two
    `SES.sendTemplatedEmail(...).promise()` calls, as observed by
    `Promise.allSettled`;
  * the result records the returned response (or an escaping exception, for
    paths on which the async function rejects), the list of
    `sendTemplatedEmail` invocations with their parameters, and the
    `console.error` log lines.
-/

namespace IndexJs

/-- Environment variables read by the handler (`process.env.*`). -/
structure Env where
  personalEmail : String
  portfolioEmail : String
  thankYouTemplate : String
  notificationTemplate : String
  deriving Repr, DecidableEq

/-- The Lambda event: we only model `event.body`.  `none` stands for an
absent (`undefined`/`null`) body; the empty string is also falsy in JS. -/
structure Event where
  body : Option String
  deriving Repr, DecidableEq

/-- Result of `JSON.parse(event.body)`: the five keys the handler reads,
each `some` when the key is present (`'k' in body`). -/
structure Body where
  recaptcha : Option String
  name : Option String
  email : Option String
  subject : Option String
  message : Option String
  deriving Repr, DecidableEq

/-- A parsed body once all five keys are known to be present. -/
structure Submission where
  recaptcha : String
  name : String
  email : String
  subject : String
  message : String
  deriving Repr, DecidableEq

/-- Result of `JSON.parse(event.body)` combined with the shape of the
parsed value, as the handler's synchronous code then observes it:

* `throws msg`: the body is not well-formed JSON, so `JSON.parse` on
  line 71 throws an error with message `msg`.
* `nonObject msg`: the body parses, but to `null`, a number, a string or
  a boolean.  The JS `in` operator requires an object, so the key test
  `in body` on line 72 throws a TypeError with message `msg`.
* `nullField msg`: the body parses to an object that passes the five-key
  presence check on line 72 but in which the value of at least one of
  `name`, `email`, `subject`, `message` is `null`; the first read of
  `.length` (or `.indexOf`) on that value at lines 76-99 throws a
  TypeError with message `msg`.  (A `null` value still counts as present
  for the `in` operator, and `recaptcha` is exempt because its value is
  not read by the validation block.)
* `ok body`: the body parses to an object whose five keys, where
  present, have string values.  A parsed array also behaves like `ok`
  with all five keys absent: the `in` operator accepts it and finds none
  of the keys.

Objects carrying other non-string values (numbers, booleans, nested
arrays or objects) in the read fields are outside this embedding: the
code's behaviour on them mixes silent acceptance with throwing, and no
claim of the specification speaks about them. -/
inductive ParseResult where
  | throws (msg : String)
  | nonObject (msg : String)
  | nullField (msg : String)
  | ok (body : Body)
  deriving Repr, DecidableEq

/-- The `data` field of the siteverify response (`response.data`): we only
model the `success` flag read by the handler (a missing/falsy `success`
behaves as `false`). -/
structure SiteverifyData where
  success : Bool
  deriving Repr, DecidableEq

/-- The resolved value of the `axios.post` call; `data = none` models a
response object whose `data` is falsy. -/
structure VerifyResponse where
  data : Option SiteverifyData
  deriving Repr, DecidableEq

/-- Awaited outcome of the verification call: the promise rejects with an
error whose message is `msg`, or resolves to `response` (`none` models a
falsy resolved value, covering the `!response` check). -/
inductive VerifyOutcome where
  | throws (msg : String)
  | returns (response : Option VerifyResponse)
  deriving Repr, DecidableEq

/-- One entry of the `Promise.allSettled` result: fulfilled, or rejected
with an error whose `.message` is the given string. -/
inductive SettledOutcome where
  | fulfilled
  | rejected (message : String)
  deriving Repr, DecidableEq

/-- Parameters of one `SES.sendTemplatedEmail` invocation (the fields the
handler fills in). -/
structure SendParams where
  toAddresses : List String
  source : String
  template : String
  templateData : String
  replyToAddresses : List String
  deriving Repr, DecidableEq

/-- A response body: most paths return a string; the missing-fields path
returns the object literal `\x7b message: 'Bad Request' \x7d`. -/
inductive RespBody where
  | str (s : String)
  | obj (message : String)
  deriving Repr, DecidableEq

/-- The `\x7b statusCode, body \x7d` object returned by the handler. -/
structure Response where
  statusCode : Nat
  body : RespBody
  deriving Repr, DecidableEq

deriving instance DecidableEq for Except

/-- Observable result of one invocation: the returned response, or
`Except.error m` when an exception with message `m` escapes the async
function (the returned promise rejects); plus the `sendTemplatedEmail`
calls issued and the `console.error` lines. -/
structure HandlerResult where
  outcome : Except String Response
  sends : List SendParams
  logs : List String
  deriving Repr, DecidableEq

/-! ### JSON.stringify, restricted to the shapes the handler serializes -/

/-- Escape one character as `JSON.stringify` does for the characters that
can matter here. -/
def escapeChar (c : Char) : String :=
  if c = '\\' then "\\\\"
  else if c = '"' then "\\\""
  else if c = '\n' then "\\n"
  else String.singleton c

/-- The `JSON.stringify` encoding of a string value. -/
def jsonEncodeString (s : String) : String :=
  "\"" ++ String.join (s.toList.map escapeChar) ++ "\""

/-- The `JSON.stringify` encoding of the `validations` object: its keys in insertion
order, each mapped to a string message. -/
def stringifyPairs (l : List (String × String)) : String :=
  "\x7b" ++ String.intercalate ","
    (l.map fun p => jsonEncodeString p.1 ++ ":" ++ jsonEncodeString p.2) ++ "\x7d"

/-- The `JSON.stringify` encoding of a parsed body with the five keys. -/
def stringifySubmission (b : Submission) : String :=
  "\x7b\"recaptcha\":" ++ jsonEncodeString b.recaptcha ++
  ",\"name\":" ++ jsonEncodeString b.name ++
  ",\"email\":" ++ jsonEncodeString b.email ++
  ",\"subject\":" ++ jsonEncodeString b.subject ++
  ",\"message\":" ++ jsonEncodeString b.message ++ "\x7d"

/-- The 200 payload, `JSON.stringify(\x7b statusText: "OK" \x7d)`. -/
def okPayload : String := "\x7b\"statusText\":\"OK\"\x7d"

/-! ### Validation (src/index.js lines 75-106) -/

def nameTooShortMsg : String :=
  "Your name was too short. It should be at least 2 characters long."

def nameTooLargeMsg : String :=
  "Your name was too large. Please limit your answer to 50 characters."

def emailInvalidMsg : String := "Please enter a valid email."

def subjectTooShortMsg : String :=
  "Please enter a subject. It should be at least 2 characters long."

def subjectTooLargeMsg : String := "Please limit your subject to 255 characters."

def messageTooShortMsg : String :=
  "Please enter a message. It should be at least 10 characters long."

def messageTooLargeMsg : String := "Please limit your subject to 2000 characters."

/-- The `if / else if` chain for `body.name`. -/
def validateName (name : String) : Option String :=
  if name.length < 2 then some nameTooShortMsg
  else if name.length > 50 then some nameTooLargeMsg
  else none

/-- The `if / else if / else if` chain for `body.email`
(the `indexOf === -1` test is: no character of the string is `'@'`). -/
def validateEmail (email : String) : Option String :=
  if email.length < 3 then some emailInvalidMsg
  else if email.length > 254 then some emailInvalidMsg
  else if email.toList.contains '@' = false then some emailInvalidMsg
  else none

/-- The `if / else if` chain for `body.subject`. -/
def validateSubject (subject : String) : Option String :=
  if subject.length < 2 then some subjectTooShortMsg
  else if subject.length > 255 then some subjectTooLargeMsg
  else none

/-- The `if / else if` chain for `body.message`. -/
def validateMessage (message : String) : Option String :=
  if message.length < 10 then some messageTooShortMsg
  else if message.length > 2000 then some messageTooLargeMsg
  else none

/-- A possible key of the `validations` object. -/
def entry (field : String) (v : Option String) : List (String × String) :=
  match v with
  | some m => [(field, m)]
  | none => []

/-- The `validations` object built by lines 75-100, as its key/message
pairs in insertion order. -/
def validations (name email subject message : String) : List (String × String) :=
  entry "name" (validateName name) ++
  entry "email" (validateEmail email) ++
  entry "subject" (validateSubject subject) ++
  entry "message" (validateMessage message)

/-! ### Verification gate and fan-out (lines 115-170) -/

/-- The 500 body (line 121). -/
def somethingWentWrongMsg (env : Env) : String :=
  "Something went wrong. If this error persists, please notify me by email at "
    ++ env.personalEmail ++ "."

/-- The message of the error thrown on `success:false` (line 125). -/
def flaggedMsg (env : Env) : String :=
  "Your form has been flagged as fraudulous. Please email me directly at "
    ++ env.personalEmail ++ "."

/-- Parameters of the thank-you send (lines 135-147). -/
def thankYouParams (env : Env) (b : Submission) : SendParams :=
  { toAddresses := [b.email]
    source := env.portfolioEmail
    template := env.thankYouTemplate
    templateData := stringifySubmission b
    replyToAddresses := [env.portfolioEmail] }

/-- Parameters of the notification send (lines 149-161). -/
def notificationParams (env : Env) (b : Submission) : SendParams :=
  { toAddresses := [env.personalEmail]
    source := env.portfolioEmail
    template := env.notificationTemplate
    templateData := stringifySubmission b
    replyToAddresses := [b.email] }

/-- Lines 133-170: push both sends, `await Promise.allSettled`, then
branch on `values[1].status` (the notification send). On rejection,
`console.error(values[1].reason)` logs the reason and the 503 body is
`JSON.stringify(values[1].reason.message)`. -/
def sendPhase (env : Env) (_thankYouOutcome notificationOutcome : SettledOutcome)
    (b : Submission) : HandlerResult :=
  match notificationOutcome with
  | SettledOutcome.rejected reason =>
    { outcome := Except.ok ⟨503, RespBody.str (jsonEncodeString reason)⟩
      sends := [thankYouParams env b, notificationParams env b]
      logs := [reason] }
  | SettledOutcome.fulfilled =>
    { outcome := Except.ok ⟨200, RespBody.str okPayload⟩
      sends := [thankYouParams env b, notificationParams env b]
      logs := [] }

/-- Lines 115-132: the `try/catch` around the verification call. A throw
from `axios.post` and the explicit `throw` on `success:false` are both
caught by line 127 and produce a 401 whose body is `e.message`; a resolved
call with a falsy `response` or `response.data` returns 500 from inside the
`try`. Only a resolved `\x7b success: true \x7d` reaches the send phase. -/
def verifyPhase (env : Env) (verify : VerifyOutcome)
    (thankYouOutcome notificationOutcome : SettledOutcome) (b : Submission) :
    HandlerResult :=
  match verify with
  | VerifyOutcome.throws m =>
    { outcome := Except.ok ⟨401, RespBody.str m⟩, sends := [], logs := [] }
  | VerifyOutcome.returns none =>
    { outcome := Except.ok ⟨500, RespBody.str (somethingWentWrongMsg env)⟩
      sends := [], logs := [] }
  | VerifyOutcome.returns (some resp) =>
    match resp.data with
    | none =>
      { outcome := Except.ok ⟨500, RespBody.str (somethingWentWrongMsg env)⟩
        sends := [], logs := [] }
    | some d =>
      if d.success then sendPhase env thankYouOutcome notificationOutcome b
      else
        { outcome := Except.ok ⟨401, RespBody.str (flaggedMsg env)⟩
          sends := [], logs := [] }

/-- Lines 72-114: the key-presence check, the validation block and the
400/422 terminals; on success control falls through to the verification
gate. -/
def bodyPhase (env : Env) (verify : VerifyOutcome)
    (thankYouOutcome notificationOutcome : SettledOutcome) (body : Body) :
    HandlerResult :=
  match body.recaptcha, body.name, body.email, body.subject, body.message with
  | some r, some nm, some em, some sj, some ms =>
    if (validations nm em sj ms).length ≠ 0 then
      { outcome := Except.ok ⟨422, RespBody.str (stringifyPairs (validations nm em sj ms))⟩
        sends := [], logs := [] }
    else
      verifyPhase env verify thankYouOutcome notificationOutcome ⟨r, nm, em, sj, ms⟩
  | _, _, _, _, _ =>
    { outcome := Except.ok ⟨400, RespBody.obj "Bad Request"⟩, sends := [], logs := [] }

/-- The function `exports.handler` (lines 64-171). `jsonParse` is the
`JSON.parse` builtin together with the observed shape of the parsed
value (`ParseResult`).  The throw of `JSON.parse` on line 71, the
TypeError of the `in` operator on a non-object body (line 72) and the
TypeError of the `.length`/`.indexOf` reads on a null field value (lines
76-99) are all outside any `try`, so on those inputs the async function's
promise rejects (`Except.error`) without any send or log. -/
def handler (jsonParse : String → ParseResult) (env : Env) (verify : VerifyOutcome)
    (thankYouOutcome notificationOutcome : SettledOutcome) (event : Event) :
    HandlerResult :=
  match event.body with
  | none =>
    { outcome := Except.ok ⟨400, RespBody.str "Bad Request"⟩, sends := [], logs := [] }
  | some s =>
    if s.isEmpty then
      { outcome := Except.ok ⟨400, RespBody.str "Bad Request"⟩, sends := [], logs := [] }
    else
      match jsonParse s with
      | ParseResult.throws m => { outcome := Except.error m, sends := [], logs := [] }
      | ParseResult.nonObject m => { outcome := Except.error m, sends := [], logs := [] }
      | ParseResult.nullField m => { outcome := Except.error m, sends := [], logs := [] }
      | ParseResult.ok body =>
        bodyPhase env verify thankYouOutcome notificationOutcome body

/-- Whether a verification outcome is a resolved response whose payload
carries a true `success` flag. -/
def verifySucceeded : VerifyOutcome → Bool
  | VerifyOutcome.returns (some ⟨some ⟨true⟩⟩) => true
  | _ => false

end IndexJs

namespace IndexJs

/-! ### Supporting lemmas about the validation block -/

theorem validateName_isSome (nm : String) :
    (validateName nm).isSome ↔ (nm.length < 2 ∨ 50 < nm.length) := by
  unfold validateName
  by_cases h1 : nm.length < 2
  · simp [h1]
  · by_cases h2 : nm.length > 50
    · simp [h1, h2]
    · simp [h1, h2]

theorem validateEmail_isSome (em : String) :
    (validateEmail em).isSome ↔
      (em.length < 3 ∨ 254 < em.length ∨ em.toList.contains '@' = false) := by
  unfold validateEmail
  by_cases h1 : em.length < 3
  · simp [h1]
  · by_cases h2 : em.length > 254
    · simp [h1, h2]
    · by_cases h3 : em.toList.contains '@' = false
      · simp [h1, h2, h3]
      · simp [h1, h2, h3]

theorem validateSubject_isSome (sj : String) :
    (validateSubject sj).isSome ↔ (sj.length < 2 ∨ 255 < sj.length) := by
  unfold validateSubject
  by_cases h1 : sj.length < 2
  · simp [h1]
  · by_cases h2 : sj.length > 255
    · simp [h1, h2]
    · simp [h1, h2]

theorem validateMessage_isSome (ms : String) :
    (validateMessage ms).isSome ↔ (ms.length < 10 ∨ 2000 < ms.length) := by
  unfold validateMessage
  by_cases h1 : ms.length < 10
  · simp [h1]
  · by_cases h2 : ms.length > 2000
    · simp [h1, h2]
    · simp [h1, h2]

theorem validations_lookup_name (nm em sj ms : String) :
    (validations nm em sj ms).lookup "name" = validateName nm := by
  unfold validations entry
  cases validateName nm <;> cases validateEmail em <;> cases validateSubject sj <;>
    cases validateMessage ms <;> simp [List.lookup]

theorem validations_lookup_email (nm em sj ms : String) :
    (validations nm em sj ms).lookup "email" = validateEmail em := by
  unfold validations entry
  cases validateName nm <;> cases validateEmail em <;> cases validateSubject sj <;>
    cases validateMessage ms <;> simp [List.lookup]

theorem validations_lookup_subject (nm em sj ms : String) :
    (validations nm em sj ms).lookup "subject" = validateSubject sj := by
  unfold validations entry
  cases validateName nm <;> cases validateEmail em <;> cases validateSubject sj <;>
    cases validateMessage ms <;> simp [List.lookup]

theorem validations_lookup_message (nm em sj ms : String) :
    (validations nm em sj ms).lookup "message" = validateMessage ms := by
  unfold validations entry
  cases validateName nm <;> cases validateEmail em <;> cases validateSubject sj <;>
    cases validateMessage ms <;> simp [List.lookup]

theorem validations_keys_nodup (nm em sj ms : String) :
    ((validations nm em sj ms).map Prod.fst).Nodup := by
  unfold validations entry
  cases validateName nm <;> cases validateEmail em <;> cases validateSubject sj <;>
    cases validateMessage ms <;> simp

/-! ### Supporting lemmas about the control flow -/

theorem verifyPhase_sends_nonempty (env : Env) (v : VerifyOutcome)
    (t n : SettledOutcome) (b : Submission)
    (h : (verifyPhase env v t n b).sends ≠ []) : verifySucceeded v = true := by
  cases v with
  | throws m => simp [verifyPhase] at h
  | returns o =>
    cases o with
    | none => simp [verifyPhase] at h
    | some resp =>
      obtain ⟨rd⟩ := resp
      cases rd with
      | none => simp [verifyPhase] at h
      | some d =>
        obtain ⟨flag⟩ := d
        cases flag
        · simp [verifyPhase] at h
        · rfl

theorem bodyPhase_sends_nonempty (env : Env) (v : VerifyOutcome)
    (t n : SettledOutcome) (b : Body)
    (h : (bodyPhase env v t n b).sends ≠ []) : verifySucceeded v = true := by
  obtain ⟨r, nm, em, sj, ms⟩ := b
  cases r <;> cases nm <;> cases em <;> cases sj <;> cases ms <;>
    simp only [bodyPhase] at h
  case some.some.some.some.some r nm em sj ms =>
    split at h
    · simp at h
    · exact verifyPhase_sends_nonempty _ _ _ _ _ h
  all_goals simp at h

theorem verifyPhase_outcome_ok (env : Env) (v : VerifyOutcome)
    (t n : SettledOutcome) (b : Submission) :
    ∃ resp, (verifyPhase env v t n b).outcome = Except.ok resp := by
  cases v with
  | throws m => exact ⟨_, rfl⟩
  | returns o =>
    cases o with
    | none => exact ⟨_, rfl⟩
    | some resp =>
      obtain ⟨rd⟩ := resp
      cases rd with
      | none => exact ⟨_, rfl⟩
      | some d =>
        obtain ⟨flag⟩ := d
        cases flag
        · exact ⟨_, rfl⟩
        · cases n <;> exact ⟨_, rfl⟩

theorem bodyPhase_outcome_ok (env : Env) (v : VerifyOutcome)
    (t n : SettledOutcome) (b : Body) :
    ∃ resp, (bodyPhase env v t n b).outcome = Except.ok resp := by
  obtain ⟨r, nm, em, sj, ms⟩ := b
  cases r <;> cases nm <;> cases em <;> cases sj <;> cases ms <;>
    simp only [bodyPhase]
  case some.some.some.some.some r nm em sj ms =>
    split
    · exact ⟨_, rfl⟩
    · exact verifyPhase_outcome_ok _ _ _ _ _
  all_goals exact ⟨_, rfl⟩

/-- On a request whose body is truthy, parses, has all five keys and passes
validation, the handler is exactly the verification gate followed by the
fan-out. -/
theorem handler_valid_path (p : String → ParseResult) (env : Env) (v : VerifyOutcome)
    (t n : SettledOutcome) (s r nm em sj ms : String)
    (hs : s.isEmpty = false)
    (hp : p s = ParseResult.ok ⟨some r, some nm, some em, some sj, some ms⟩)
    (hv : validations nm em sj ms = []) :
    handler p env v t n ⟨some s⟩ = verifyPhase env v t n ⟨r, nm, em, sj, ms⟩ := by
  simp only [handler, hs, Bool.false_eq_true, if_false, hp]
  simp only [bodyPhase, hv]
  simp

/-- Holds (is `true`) exactly when the invocation returned (rather than threw) a
`\x7b statusCode, body \x7d` value. -/
def isResponse (r : HandlerResult) : Bool :=
  match r.outcome with
  | Except.ok _ => true
  | Except.error _ => false

/-- Holds exactly when the parse outcome is an object body whose five
read keys are absent or strings — the bodies on which the handler's
synchronous code runs without throwing. -/
def isObjBody : ParseResult → Bool
  | ParseResult.ok _ => true
  | _ => false

/-! ### Concrete fixtures used by witnesses and counterexamples -/

/-- A concrete environment. -/
def env0 : Env :=
  ⟨"owner@example.com", "portfolio@example.com", "ThankYouTemplate", "NotifTemplate"⟩

/-- A concrete submission that passes every validation rule. -/
def sub0 : Submission :=
  ⟨"tok", "Jane", "jane@example.com", "Hello", "Hello there, testing."⟩

/-- The submission `sub0` as a parsed body with all five keys present. -/
def body0 : Body :=
  ⟨some "tok", some "Jane", some "jane@example.com", some "Hello",
    some "Hello there, testing."⟩

/-- A `JSON.parse` behaviour that yields `body0`. -/
def parse0 : String → ParseResult := fun _ => ParseResult.ok body0

/-- A `JSON.parse` behaviour that throws, as `JSON.parse` does on a body
that is not well-formed JSON. -/
def parseThrows : String → ParseResult :=
  fun _ => ParseResult.throws "Unexpected end of JSON input"

/-- The behaviour on a body that parses to a non-object JSON value (for
instance the body string "5"): the key test on line 72 throws. -/
def parseNonObject : String → ParseResult :=
  fun _ => ParseResult.nonObject "Cannot use in operator to search for recaptcha in 5"

/-- The behaviour on a body that parses to an object with all five keys
present but a null `name` value: line 76 reads `.length` of null and
throws. -/
def parseNullField : String → ParseResult :=
  fun _ => ParseResult.nullField "Cannot read properties of null reading length"

/-- A `JSON.parse` behaviour that yields a body whose `name` is too short
and whose `message` is too short, the other fields conforming. -/
def parseBad : String → ParseResult :=
  fun _ => ParseResult.ok ⟨some "tok", some "J", some "jane@example.com", some "Hello", some "short"⟩

end IndexJs

namespace IndexJs

/-! ### Claims -/

/-- C1 (counterexample). On a validated submission for which the
verification call throws (provider unreachable), the handler does not
return 500 with the generic retry-later message as the claim states: the
`catch` on line 127 turns every throw into a 401 whose body is the thrown
error's message. At this concrete input the full result is the 401
response, so the status code is not 500. -/
theorem C1_counterexample :
    handler parse0 env0 (VerifyOutcome.throws "connect ECONNREFUSED")
        SettledOutcome.fulfilled SettledOutcome.fulfilled ⟨some "x"⟩ =
      { outcome := Except.ok ⟨401, RespBody.str "connect ECONNREFUSED"⟩
        sends := [], logs := [] } ∧
    (401 : Nat) ≠ 500 := by
  exact ⟨by decide, by decide⟩

/-- C1 (amended). For every request whose body passes presence and field
validation, if the call to the verification provider throws, the handler
returns status 401 with the thrown error's message as the body, and no
email-send operation is invoked. -/
theorem C1_verify_throw_401 (p : String → ParseResult) (env : Env)
    (t n : SettledOutcome) (s r nm em sj ms msg : String)
    (hs : s.isEmpty = false)
    (hp : p s = ParseResult.ok ⟨some r, some nm, some em, some sj, some ms⟩)
    (hv : validations nm em sj ms = []) :
    handler p env (VerifyOutcome.throws msg) t n ⟨some s⟩ =
      { outcome := Except.ok ⟨401, RespBody.str msg⟩, sends := [], logs := [] } := by
  rw [handler_valid_path p env _ t n s r nm em sj ms hs hp hv]
  rfl

/-- C1 witness: the amended statement at a concrete input. -/
theorem C1_verify_throw_401_witness :
    handler parse0 env0 (VerifyOutcome.throws "connect ECONNREFUSED")
        SettledOutcome.fulfilled SettledOutcome.fulfilled ⟨some "x"⟩ =
      { outcome := Except.ok ⟨401, RespBody.str "connect ECONNREFUSED"⟩
        sends := [], logs := [] } :=
  C1_verify_throw_401 parse0 env0 SettledOutcome.fulfilled SettledOutcome.fulfilled
    "x" "tok" "Jane" "jane@example.com" "Hello" "Hello there, testing."
    "connect ECONNREFUSED" rfl rfl (by decide)

/-- C2. On every execution path, if any `sendTemplatedEmail` call was
issued, then the verification provider was called and resolved with a
payload whose success flag is true. -/
theorem C2_no_send_without_verification (p : String → ParseResult) (env : Env)
    (v : VerifyOutcome) (t n : SettledOutcome) (event : Event)
    (h : (handler p env v t n event).sends ≠ []) : verifySucceeded v = true := by
  obtain ⟨b⟩ := event
  cases b with
  | none => simp [handler] at h
  | some s =>
    simp only [handler] at h
    split at h
    · simp at h
    · cases hp : p s with
      | throws m => rw [hp] at h; simp at h
      | nonObject m => rw [hp] at h; simp at h
      | nullField m => rw [hp] at h; simp at h
      | ok body =>
        rw [hp] at h
        exact bodyPhase_sends_nonempty _ _ _ _ _ h

/-- C2 witness: a run that does send email indeed had a successful
verification. -/
theorem C2_no_send_without_verification_witness :
    verifySucceeded (VerifyOutcome.returns (some ⟨some ⟨true⟩⟩)) = true :=
  C2_no_send_without_verification parse0 env0
    (VerifyOutcome.returns (some ⟨some ⟨true⟩⟩))
    SettledOutcome.fulfilled SettledOutcome.fulfilled ⟨some "x"⟩ (by decide)

/-- C3 (counterexample). A request whose body string is not well-formed
JSON makes `JSON.parse` on line 71 throw outside any `try`, so the async
handler's promise rejects instead of producing a response: the claim that
the handler never throws past the function boundary is false. -/
theorem C3_counterexample :
    isResponse (handler parseThrows env0 (VerifyOutcome.returns none)
        SettledOutcome.fulfilled SettledOutcome.fulfilled ⟨some "not json"⟩) = false ∧
    (handler parseThrows env0 (VerifyOutcome.returns none)
        SettledOutcome.fulfilled SettledOutcome.fulfilled ⟨some "not json"⟩).outcome =
      Except.error "Unexpected end of JSON input" := by
  exact ⟨rfl, rfl⟩

/-- C3 (amended). For every request whose body is absent, empty, or
parses to a JSON object whose five read keys are, where present, string
valued, the handler produces exactly one response with a status code and
a body and no exception escapes the function boundary; whereas a body
that fails to parse (line 71), parses to a non-object (line 72), or
parses to an object with a null value in a validated field (lines 76-99)
makes the uncaught exception escape as a rejected promise. -/
theorem C3_response_when_parsable (p : String → ParseResult) (env : Env)
    (v : VerifyOutcome) (t n : SettledOutcome) (event : Event) :
    ((∀ s, event.body = some s → s.isEmpty = false → isObjBody (p s) = true) →
      isResponse (handler p env v t n event) = true) ∧
    (∀ s m, event.body = some s → s.isEmpty = false → p s = ParseResult.throws m →
      (handler p env v t n event).outcome = Except.error m) ∧
    (∀ s m, event.body = some s → s.isEmpty = false → p s = ParseResult.nonObject m →
      (handler p env v t n event).outcome = Except.error m) ∧
    (∀ s m, event.body = some s → s.isEmpty = false → p s = ParseResult.nullField m →
      (handler p env v t n event).outcome = Except.error m) := by
  obtain ⟨b⟩ := event
  refine ⟨?_, ?_, ?_, ?_⟩
  · intro hp
    cases b with
    | none => rfl
    | some s =>
      simp only [handler]
      split
      · rfl
      · rename_i hne
        have hs : s.isEmpty = false := by simpa using hne
        have hobj := hp s rfl hs
        cases hps : p s with
        | throws m => rw [hps] at hobj; simp [isObjBody] at hobj
        | nonObject m => rw [hps] at hobj; simp [isObjBody] at hobj
        | nullField m => rw [hps] at hobj; simp [isObjBody] at hobj
        | ok body =>
          obtain ⟨resp, hresp⟩ := bodyPhase_outcome_ok env v t n body
          simp [isResponse, hresp]
  · intro s m hb hs hps
    simp only at hb
    subst hb
    simp [handler, hs, hps]
  · intro s m hb hs hps
    simp only at hb
    subst hb
    simp [handler, hs, hps]
  · intro s m hb hs hps
    simp only at hb
    subst hb
    simp [handler, hs, hps]

/-- C3 witness: the amended statement at concrete inputs — an object body
of strings yields a response; a non-object JSON body and a null-valued
field both yield an escaping TypeError. -/
theorem C3_response_when_parsable_witness :
    (isResponse (handler parse0 env0 (VerifyOutcome.returns none)
        SettledOutcome.fulfilled SettledOutcome.fulfilled ⟨some "x"⟩) = true) ∧
    ((handler parseNonObject env0 (VerifyOutcome.returns none)
        SettledOutcome.fulfilled SettledOutcome.fulfilled ⟨some "5"⟩).outcome =
      Except.error "Cannot use in operator to search for recaptcha in 5") ∧
    ((handler parseNullField env0 (VerifyOutcome.returns none)
        SettledOutcome.fulfilled SettledOutcome.fulfilled ⟨some "x"⟩).outcome =
      Except.error "Cannot read properties of null reading length") :=
  ⟨(C3_response_when_parsable parse0 env0 (VerifyOutcome.returns none)
      SettledOutcome.fulfilled SettledOutcome.fulfilled ⟨some "x"⟩).1
      (fun _ _ _ => rfl),
   (C3_response_when_parsable parseNonObject env0 (VerifyOutcome.returns none)
      SettledOutcome.fulfilled SettledOutcome.fulfilled ⟨some "5"⟩).2.2.1
      "5" "Cannot use in operator to search for recaptcha in 5" rfl rfl rfl,
   (C3_response_when_parsable parseNullField env0 (VerifyOutcome.returns none)
      SettledOutcome.fulfilled SettledOutcome.fulfilled ⟨some "x"⟩).2.2.2
      "x" "Cannot read properties of null reading length" rfl rfl rfl⟩

/-- C4. On the verified path, after both sends settle: if the notification
(second) send rejected, the handler returns 503 with the rejection
reason's message (JSON-encoded) as the body and logs the reason; if it
fulfilled, the handler returns 200 with the fixed success payload — in
both cases regardless of the thank-you outcome `t`. -/
theorem C4_outcome_merge (p : String → ParseResult) (env : Env)
    (t n : SettledOutcome) (s r nm em sj ms : String)
    (hs : s.isEmpty = false)
    (hp : p s = ParseResult.ok ⟨some r, some nm, some em, some sj, some ms⟩)
    (hv : validations nm em sj ms = []) :
    (∀ reason, n = SettledOutcome.rejected reason →
      handler p env (VerifyOutcome.returns (some ⟨some ⟨true⟩⟩)) t n ⟨some s⟩ =
        { outcome := Except.ok ⟨503, RespBody.str (jsonEncodeString reason)⟩
          sends := [thankYouParams env ⟨r, nm, em, sj, ms⟩,
                    notificationParams env ⟨r, nm, em, sj, ms⟩]
          logs := [reason] }) ∧
    (n = SettledOutcome.fulfilled →
      handler p env (VerifyOutcome.returns (some ⟨some ⟨true⟩⟩)) t n ⟨some s⟩ =
        { outcome := Except.ok ⟨200, RespBody.str okPayload⟩
          sends := [thankYouParams env ⟨r, nm, em, sj, ms⟩,
                    notificationParams env ⟨r, nm, em, sj, ms⟩]
          logs := [] }) := by
  constructor
  · intro reason hn
    subst hn
    rw [handler_valid_path p env _ t _ s r nm em sj ms hs hp hv]
    rfl
  · intro hn
    subst hn
    rw [handler_valid_path p env _ t _ s r nm em sj ms hs hp hv]
    rfl

/-- C4 witness: the rejected-notification half at a concrete input. -/
theorem C4_outcome_merge_witness :
    handler parse0 env0 (VerifyOutcome.returns (some ⟨some ⟨true⟩⟩))
        SettledOutcome.fulfilled (SettledOutcome.rejected "MessageRejected") ⟨some "x"⟩ =
      { outcome := Except.ok ⟨503, RespBody.str (jsonEncodeString "MessageRejected")⟩
        sends := [thankYouParams env0 sub0, notificationParams env0 sub0]
        logs := ["MessageRejected"] } :=
  (C4_outcome_merge parse0 env0 SettledOutcome.fulfilled
      (SettledOutcome.rejected "MessageRejected")
      "x" "tok" "Jane" "jane@example.com" "Hello" "Hello there, testing."
      rfl rfl (by decide)).1 "MessageRejected" rfl

/-- C5. For every parsed body with all five keys and at least one rule
violation, the handler returns 422 whose body is the serialized
accumulated mapping, and the mapping has an entry for a field exactly when
that field violates its rule — every violating field is reported, no
conforming field is. -/
theorem C5_validation_422 (p : String → ParseResult) (env : Env)
    (v : VerifyOutcome) (t n : SettledOutcome) (s r nm em sj ms : String)
    (hs : s.isEmpty = false)
    (hp : p s = ParseResult.ok ⟨some r, some nm, some em, some sj, some ms⟩)
    (hv : validations nm em sj ms ≠ []) :
    handler p env v t n ⟨some s⟩ =
      { outcome := Except.ok ⟨422, RespBody.str (stringifyPairs (validations nm em sj ms))⟩
        sends := [], logs := [] } ∧
    (((validations nm em sj ms).lookup "name").isSome ↔
        (nm.length < 2 ∨ 50 < nm.length)) ∧
    (((validations nm em sj ms).lookup "email").isSome ↔
        (em.length < 3 ∨ 254 < em.length ∨ em.toList.contains '@' = false)) ∧
    (((validations nm em sj ms).lookup "subject").isSome ↔
        (sj.length < 2 ∨ 255 < sj.length)) ∧
    (((validations nm em sj ms).lookup "message").isSome ↔
        (ms.length < 10 ∨ 2000 < ms.length)) := by
  refine ⟨?_, ?_, ?_, ?_, ?_⟩
  · simp only [handler, hs, Bool.false_eq_true, if_false, hp]
    simp only [bodyPhase]
    rw [if_pos (by simpa using hv)]
  · rw [validations_lookup_name]; exact validateName_isSome nm
  · rw [validations_lookup_email]; exact validateEmail_isSome em
  · rw [validations_lookup_subject]; exact validateSubject_isSome sj
  · rw [validations_lookup_message]; exact validateMessage_isSome ms

/-- C5 witness: the 422 response at a body whose name and message are too
short, the other fields conforming. -/
theorem C5_validation_422_witness :
    handler parseBad env0 (VerifyOutcome.returns none)
        SettledOutcome.fulfilled SettledOutcome.fulfilled ⟨some "x"⟩ =
      { outcome := Except.ok ⟨422,
          RespBody.str (stringifyPairs (validations "J" "jane@example.com" "Hello" "short"))⟩
        sends := [], logs := [] } :=
  (C5_validation_422 parseBad env0 (VerifyOutcome.returns none)
      SettledOutcome.fulfilled SettledOutcome.fulfilled
      "x" "tok" "J" "jane@example.com" "Hello" "short"
      rfl rfl (by decide)).1

/-- C6. On the verified path exactly two `sendTemplatedEmail` operations
are issued, both with `TemplateData` the JSON encoding of the submission:
a thank-you to the submitter's address with reply-to the configured
portfolio (owner) address, and a notification to the configured personal
(owner) address with reply-to the submitter's address. -/
theorem C6_two_sends (p : String → ParseResult) (env : Env)
    (t n : SettledOutcome) (s r nm em sj ms : String)
    (hs : s.isEmpty = false)
    (hp : p s = ParseResult.ok ⟨some r, some nm, some em, some sj, some ms⟩)
    (hv : validations nm em sj ms = []) :
    (handler p env (VerifyOutcome.returns (some ⟨some ⟨true⟩⟩)) t n ⟨some s⟩).sends =
      [ { toAddresses := [em]
          source := env.portfolioEmail
          template := env.thankYouTemplate
          templateData := stringifySubmission ⟨r, nm, em, sj, ms⟩
          replyToAddresses := [env.portfolioEmail] },
        { toAddresses := [env.personalEmail]
          source := env.portfolioEmail
          template := env.notificationTemplate
          templateData := stringifySubmission ⟨r, nm, em, sj, ms⟩
          replyToAddresses := [em] } ] := by
  rw [handler_valid_path p env _ t n s r nm em sj ms hs hp hv]
  cases n <;> rfl

/-- C6 witness: the two send parameter sets at a concrete input. -/
theorem C6_two_sends_witness :
    (handler parse0 env0 (VerifyOutcome.returns (some ⟨some ⟨true⟩⟩))
        SettledOutcome.fulfilled SettledOutcome.fulfilled ⟨some "x"⟩).sends =
      [thankYouParams env0 sub0, notificationParams env0 sub0] :=
  C6_two_sends parse0 env0 SettledOutcome.fulfilled SettledOutcome.fulfilled
    "x" "tok" "Jane" "jane@example.com" "Hello" "Hello there, testing."
    rfl rfl (by decide)

/-- C7. On the verified path, if the provider resolves with a payload whose
success flag is false, the handler returns 401 with the flagged message and
no email-send is invoked. -/
theorem C7_flagged_401 (p : String → ParseResult) (env : Env)
    (t n : SettledOutcome) (s r nm em sj ms : String)
    (hs : s.isEmpty = false)
    (hp : p s = ParseResult.ok ⟨some r, some nm, some em, some sj, some ms⟩)
    (hv : validations nm em sj ms = []) :
    handler p env (VerifyOutcome.returns (some ⟨some ⟨false⟩⟩)) t n ⟨some s⟩ =
      { outcome := Except.ok ⟨401, RespBody.str (flaggedMsg env)⟩
        sends := [], logs := [] } ∧
    (401 : Nat) ≠ 403 ∧ (401 : Nat) ≠ 500 := by
  refine ⟨?_, by decide, by decide⟩
  rw [handler_valid_path p env _ t n s r nm em sj ms hs hp hv]
  rfl

/-- C7 witness: the flagged 401 at a concrete input. -/
theorem C7_flagged_401_witness :
    handler parse0 env0 (VerifyOutcome.returns (some ⟨some ⟨false⟩⟩))
        SettledOutcome.fulfilled SettledOutcome.fulfilled ⟨some "x"⟩ =
      { outcome := Except.ok ⟨401, RespBody.str (flaggedMsg env0)⟩
        sends := [], logs := [] } :=
  (C7_flagged_401 parse0 env0 SettledOutcome.fulfilled SettledOutcome.fulfilled
    "x" "tok" "Jane" "jane@example.com" "Hello" "Hello there, testing."
    rfl rfl (by decide)).1

/-- C8. On the verified path, if the provider call resolves but the
response or its payload is missing, the handler returns 500 with the
generic message, and no email-send is invoked. -/
theorem C8_empty_payload_500 (p : String → ParseResult) (env : Env)
    (v : VerifyOutcome) (t n : SettledOutcome) (s r nm em sj ms : String)
    (hs : s.isEmpty = false)
    (hp : p s = ParseResult.ok ⟨some r, some nm, some em, some sj, some ms⟩)
    (hv : validations nm em sj ms = [])
    (hverify : v = VerifyOutcome.returns none ∨
               v = VerifyOutcome.returns (some ⟨none⟩)) :
    handler p env v t n ⟨some s⟩ =
      { outcome := Except.ok ⟨500, RespBody.str (somethingWentWrongMsg env)⟩
        sends := [], logs := [] } := by
  rw [handler_valid_path p env v t n s r nm em sj ms hs hp hv]
  rcases hverify with h | h <;> subst h <;> rfl

/-- C8 witness: the 500 response at a concrete input with a missing
payload. -/
theorem C8_empty_payload_500_witness :
    handler parse0 env0 (VerifyOutcome.returns (some ⟨none⟩))
        SettledOutcome.fulfilled SettledOutcome.fulfilled ⟨some "x"⟩ =
      { outcome := Except.ok ⟨500, RespBody.str (somethingWentWrongMsg env0)⟩
        sends := [], logs := [] } :=
  C8_empty_payload_500 parse0 env0 (VerifyOutcome.returns (some ⟨none⟩))
    SettledOutcome.fulfilled SettledOutcome.fulfilled
    "x" "tok" "Jane" "jane@example.com" "Hello" "Hello there, testing."
    rfl rfl (by decide) (Or.inr rfl)

/-- C9. A request with a falsy body gets exactly 400 with the fixed string
`Bad Request`, whatever the other state; and a parsed body missing any of
the five keys gets 400 with the generic object body. -/
theorem C9_missing_body_or_fields (p : String → ParseResult) (env : Env)
    (v : VerifyOutcome) (t n : SettledOutcome) :
    (∀ event : Event, (event.body = none ∨ event.body = some "") →
      handler p env v t n event =
        { outcome := Except.ok ⟨400, RespBody.str "Bad Request"⟩
          sends := [], logs := [] }) ∧
    (∀ s b, s.isEmpty = false → p s = ParseResult.ok b →
      (b.recaptcha = none ∨ b.name = none ∨ b.email = none ∨
        b.subject = none ∨ b.message = none) →
      handler p env v t n ⟨some s⟩ =
        { outcome := Except.ok ⟨400, RespBody.obj "Bad Request"⟩
          sends := [], logs := [] }) := by
  constructor
  · intro event hev
    obtain ⟨eb⟩ := event
    rcases hev with h | h
    · simp only at h; subst h; rfl
    · simp only at h; subst h; rfl
  · intro s b hs hp hmiss
    simp only [handler, hs, Bool.false_eq_true, if_false, hp]
    obtain ⟨r, nm, em, sj, ms⟩ := b
    cases r <;> cases nm <;> cases em <;> cases sj <;> cases ms <;>
      simp only [bodyPhase] <;> first
      | rfl
      | simp at hmiss

/-- C9 witness: no body, and a body missing its email key. -/
theorem C9_missing_body_or_fields_witness :
    handler parse0 env0 (VerifyOutcome.returns none)
        SettledOutcome.fulfilled SettledOutcome.fulfilled ⟨none⟩ =
      { outcome := Except.ok ⟨400, RespBody.str "Bad Request"⟩
        sends := [], logs := [] } :=
  (C9_missing_body_or_fields parse0 env0 (VerifyOutcome.returns none)
    SettledOutcome.fulfilled SettledOutcome.fulfilled).1 ⟨none⟩ (Or.inl rfl)

/-- C10. The 422 mapping holds at most one message per field: its key list
has no duplicates, and each present entry is the message of the first rule
violated in the per-field order too-short, too-long, then shape. -/
theorem C10_one_message_per_field (nm em sj ms : String) :
    ((validations nm em sj ms).map Prod.fst).Nodup ∧
    (∀ k, ((validations nm em sj ms).map Prod.fst).count k ≤ 1) ∧
    (nm.length < 2 →
      (validations nm em sj ms).lookup "name" = some nameTooShortMsg) ∧
    (¬ nm.length < 2 → 50 < nm.length →
      (validations nm em sj ms).lookup "name" = some nameTooLargeMsg) ∧
    (em.length < 3 →
      (validations nm em sj ms).lookup "email" = some emailInvalidMsg) ∧
    (¬ em.length < 3 → 254 < em.length →
      (validations nm em sj ms).lookup "email" = some emailInvalidMsg) ∧
    (¬ em.length < 3 → ¬ 254 < em.length → em.toList.contains '@' = false →
      (validations nm em sj ms).lookup "email" = some emailInvalidMsg) ∧
    (sj.length < 2 →
      (validations nm em sj ms).lookup "subject" = some subjectTooShortMsg) ∧
    (¬ sj.length < 2 → 255 < sj.length →
      (validations nm em sj ms).lookup "subject" = some subjectTooLargeMsg) ∧
    (ms.length < 10 →
      (validations nm em sj ms).lookup "message" = some messageTooShortMsg) ∧
    (¬ ms.length < 10 → 2000 < ms.length →
      (validations nm em sj ms).lookup "message" = some messageTooLargeMsg) := by
  refine ⟨validations_keys_nodup nm em sj ms,
    fun k => List.nodup_iff_count_le_one.mp (validations_keys_nodup nm em sj ms) k,
    ?_, ?_, ?_, ?_, ?_, ?_, ?_, ?_, ?_⟩
  · intro h1
    rw [validations_lookup_name]; simp [validateName, h1]
  · intro h1 h2
    rw [validations_lookup_name]; simp [validateName, h1, h2]
  · intro h1
    rw [validations_lookup_email]; simp [validateEmail, h1]
  · intro h1 h2
    rw [validations_lookup_email]; simp [validateEmail, h1, h2]
  · intro h1 h2 h3
    rw [validations_lookup_email]
    unfold validateEmail
    rw [if_neg h1, if_neg h2, if_pos h3]
  · intro h1
    rw [validations_lookup_subject]; simp [validateSubject, h1]
  · intro h1 h2
    rw [validations_lookup_subject]; simp [validateSubject, h1, h2]
  · intro h1
    rw [validations_lookup_message]; simp [validateMessage, h1]
  · intro h1 h2
    rw [validations_lookup_message]; simp [validateMessage, h1, h2]

/-- C10 witness: a too-short name is reported with the too-short message
and the key list of the mapping is duplicate-free. -/
theorem C10_one_message_per_field_witness :
    (validations "J" "jane@example.com" "Hello" "short").lookup "name" =
      some nameTooShortMsg :=
  (C10_one_message_per_field "J" "jane@example.com" "Hello" "short").2.2.1 (by decide)

end IndexJs
